import Mathlib

/-!
Verification of the mizpos thermal-printer core against its specification.

The development shallowly embeds the two Rust source files that the claims
concern:

* `src-tauri/src/jp_escpos.rs` — the ESC/POS style/layout engine
  (`JpPrinter`): byte-level command constants, the width model
  (`print_width`), the row/padding layout operations, and the QR/barcode
  sub-protocols.  Each `self.raw(...)` call of a text-emitting operation is
  modelled as one element of a trace; the commands carry their exact byte
  encodings via `bytesOf`, and the printer's persistent style state is the
  record `PState` with the transition function `applyWrite`.

* `src-tauri/src/lib.rs` — the receipt formatter: currency formatting
  (`format_price`), book secondary-code derivation (`format_book_number`),
  and the change-due computation of `print_receipt`.

Machine integers are modelled as `Nat` with explicit `% 256` / `% 65536`
where the Rust code truncates (`as u8`, split of a `usize` length into two
bytes).  Rust byte-level `len()` / `[a..b]` string slicing in
`format_book_number` is modelled at the character level; the two coincide on
single-byte (ASCII) content, and every call site concerns numeric ASCII
codes.
-/

namespace Mizpos

/-! ### Command byte constants (jp_escpos.rs lines 6-47) -/

def CTL_LF : List Nat := [0x0a]

def TXT_BOLD_ON : List Nat := [0x1b, 0x45, 0x01]

def TXT_BOLD_OFF : List Nat := [0x1b, 0x45, 0x00]

def TXT_UNDERL_ON : List Nat := [0x1b, 0x2d, 0x01]

def TXT_UNDERL_OFF : List Nat := [0x1b, 0x2d, 0x00]

def JP_UNDERL_ON : List Nat := [0x1c, 0x2d, 0x01]

def JP_UNDERL_OFF : List Nat := [0x1c, 0x2d, 0x00]

def TXT_ALIGN_LT : List Nat := [0x1b, 0x61, 0x00]

def TXT_ALIGN_CT : List Nat := [0x1b, 0x61, 0x01]

def TXT_ALIGN_RT : List Nat := [0x1b, 0x61, 0x02]

def TXT_REVERSE_ON : List Nat := [0x1d, 0x42, 0x01]

def TXT_REVERSE_OFF : List Nat := [0x1d, 0x42, 0x00]

def TXT_DOUBLE_SIZE : List Nat := [0x1b, 0x21, 0x30]

def TXT_NORMAL_SIZE : List Nat := [0x1b, 0x21, 0x00]

def QR_MODEL_2 : List Nat := [0x1D, 0x28, 0x6B, 0x04, 0x00, 0x31, 0xA5, 0x32, 0x00]

/-- Byte constant `QR_SIZE_PREFIX` of the source (header of the fn=167
cell-size command, before the one parameter byte). -/
def QR_SIZE_HEADER : List Nat := [0x1D, 0x28, 0x6B, 0x03, 0x00, 0x31, 0xA7]

def QR_ERROR_M : List Nat := [0x1D, 0x28, 0x6B, 0x03, 0x00, 0x31, 0xA9, 0x31]

def QR_PRINT : List Nat := [0x1D, 0x28, 0x6B, 0x03, 0x00, 0x31, 0xB5, 0x30]

def JP_KANJI_MODE_ON : List Nat := [0x1c, 0x26]

def JP_KANJI_MODE_OFF : List Nat := [0x1c, 0x2e]

def JP_KANJI_SIZE_CMD : List Nat := [0x1c, 0x21]

/-! ### Data model (jp_escpos.rs lines 49-156) -/

inductive PaperWidth where
  | Mm58
  | Mm80
deriving DecidableEq

def PaperWidth.dots : PaperWidth → Nat
  | .Mm58 => 384
  | .Mm80 => 576

def PaperWidth.chars : PaperWidth → Nat
  | .Mm58 => 32
  | .Mm80 => 48

def PaperWidth.chars_jp : PaperWidth → Nat
  | .Mm58 => 16
  | .Mm80 => 24

inductive Align where
  | Left
  | Center
  | Right
deriving DecidableEq

structure TextStyle where
  bold : Bool := false
  underline : Bool := false
  double_width : Bool := false
  double_height : Bool := false
  reverse : Bool := false
  align : Align := Align.Left
deriving DecidableEq

/-! ### Width model (jp_escpos.rs lines 363-373) -/

/-- Per-character display width: ASCII (codepoint at most 0x7F) is narrow
(1 cell), everything else is wide (2 cells).  Body of the closure inside
`JpPrinter::print_width`. -/
def charWidth (c : Char) : Nat :=
  if c.toNat ≤ 0x7F then 1 else 2

/-- `JpPrinter::print_width`: sum of per-character display widths. -/
def print_width (s : String) : Nat :=
  (s.data.map charWidth).sum

/-! ### Trace of raw writes of a text-emitting operation

`JpPrinter::jp_text` performs a sequence of `self.raw(bytes)` calls; each
call is one `Write`.  `bytesOf` recovers the exact bytes each write puts on
the wire, so the trace determines the emitted byte stream. -/

inductive Write where
  | alignCmd (a : Align)
  | boldCmd (b : Bool)
  | underlineCmd (b : Bool)
  | reverseCmd (b : Bool)
  | doubleSizeCmd (b : Bool)
  | kanjiModeOn
  | kanjiModeOff
  | kanjiSizeCmd (n : Nat)
  | textBytes (bs : List Nat)
  | lf
deriving DecidableEq

/-- Exact bytes of each raw write (`set_align`, `set_bold`, `set_underline`
emits the ASCII and the kanji command back to back, `set_reverse`,
`set_double_size`, kanji mode on/off, the `FS !` size command with its flag
byte, the encoded text payload, and the line feed of `feed(1)`). -/
def bytesOf : Write → List Nat
  | .alignCmd .Left => TXT_ALIGN_LT
  | .alignCmd .Center => TXT_ALIGN_CT
  | .alignCmd .Right => TXT_ALIGN_RT
  | .boldCmd true => TXT_BOLD_ON
  | .boldCmd false => TXT_BOLD_OFF
  | .underlineCmd true => TXT_UNDERL_ON ++ JP_UNDERL_ON
  | .underlineCmd false => TXT_UNDERL_OFF ++ JP_UNDERL_OFF
  | .reverseCmd true => TXT_REVERSE_ON
  | .reverseCmd false => TXT_REVERSE_OFF
  | .doubleSizeCmd true => TXT_DOUBLE_SIZE
  | .doubleSizeCmd false => TXT_NORMAL_SIZE
  | .kanjiModeOn => JP_KANJI_MODE_ON
  | .kanjiModeOff => JP_KANJI_MODE_OFF
  | .kanjiSizeCmd n => JP_KANJI_SIZE_CMD ++ [n % 256]
  | .textBytes bs => bs
  | .lf => CTL_LF

/-- Persistent style state of the printer device.  The device retains these
settings across writes; each command updates one of them.  `doubleSize` is
the `ESC !` double-size flag, `kanjiSize` the `FS !` size flag byte. -/
structure PState where
  align : Align
  bold : Bool
  underline : Bool
  reverse : Bool
  doubleSize : Bool
  kanjiMode : Bool
  kanjiSize : Nat
deriving DecidableEq

/-- Effect of one raw write on the device's style state.  Text payload bytes
are glyph data in kanji mode and do not change style state; a line feed does
not either. -/
def applyWrite (s : PState) : Write → PState
  | .alignCmd a => { s with align := a }
  | .boldCmd b => { s with bold := b }
  | .underlineCmd b => { s with underline := b }
  | .reverseCmd b => { s with reverse := b }
  | .doubleSizeCmd b => { s with doubleSize := b }
  | .kanjiModeOn => { s with kanjiMode := true }
  | .kanjiModeOff => { s with kanjiMode := false }
  | .kanjiSizeCmd n => { s with kanjiSize := n }
  | .textBytes _ => s
  | .lf => s

def applyWrites (s : PState) (ws : List Write) : PState :=
  ws.foldl applyWrite s

/-- Baseline style state: alignment Left, bold/underline/reverse off,
double-size off, double-byte (kanji) mode off, kanji size flags clear. -/
def baseline : PState :=
  ⟨Align.Left, false, false, false, false, false, 0⟩

/-- Trace of `JpPrinter::jp_text` (lines 283-338), parameterized by the
Shift-JIS encoder `enc` (external library `encoding_rs`, modelled as an
arbitrary function to bytes). -/
def jp_text_writes (enc : String → List Nat) (txt : String) (style : TextStyle) :
    List Write :=
  let use_double_size := style.double_width && style.double_height
  let size_flag : Nat :=
    let n : Nat := 0x00
    if !use_double_size then
      let n := if style.double_width then n.lor 0x04 else n
      let n := if style.double_height then n.lor 0x08 else n
      n
    else n
  [Write.alignCmd style.align, Write.boldCmd style.bold,
    Write.underlineCmd style.underline, Write.reverseCmd style.reverse]
  ++ (if use_double_size then [Write.doubleSizeCmd true] else [])
  ++ [Write.kanjiModeOn]
  ++ (if size_flag ≠ 0x00 then [Write.kanjiSizeCmd size_flag] else [])
  ++ [Write.textBytes (enc txt)]
  ++ (if size_flag ≠ 0x00 then [Write.kanjiSizeCmd 0x00] else [])
  ++ [Write.kanjiModeOff]
  ++ (if use_double_size then [Write.doubleSizeCmd false] else [])
  ++ [Write.boldCmd false, Write.underlineCmd false, Write.reverseCmd false,
    Write.alignCmd Align.Left]

/-- Trace of `JpPrinter::jp_textln`: `jp_text` followed by `feed(1)`. -/
def jp_textln_writes (enc : String → List Nat) (txt : String) (style : TextStyle) :
    List Write :=
  jp_text_writes enc txt style ++ [Write.lf]

/-- Trace of `JpPrinter::text`: `jp_text` with the default style. -/
def text_writes (enc : String → List Nat) (txt : String) : List Write :=
  jp_text_writes enc txt {}

/-- Trace of `JpPrinter::textln`: `jp_textln` with the default style. -/
def textln_writes (enc : String → List Nat) (txt : String) : List Write :=
  jp_textln_writes enc txt {}

/-! ### Row layout (jp_escpos.rs lines 375-382) -/

/-- The line string built by `JpPrinter::row`: left text, saturating fill of
spaces, right text. -/
def row_string (left right : String) (width : Nat) : String :=
  let left_len := print_width left
  let right_len := print_width right
  let space_len := width - (left_len + right_len)
  left ++ String.mk (List.replicate space_len ' ') ++ right

/-- Trace of `JpPrinter::row`: the built line is emitted via `textln`. -/
def row_writes (enc : String → List Nat) (left right : String) (width : Nat) :
    List Write :=
  textln_writes enc (row_string left right width)

/-! ### Padded line operation (jp_escpos.rs lines 467-505) -/

/-- The padded string built by `JpPrinter::jp_textln_padded` before it
delegates to `jp_textln` (the `padded` local of the source, together with
the `char_width`, `line_width` and `effective_char_width` locals). -/
def padded_string (pw : PaperWidth) (txt : String) (style : TextStyle) : String :=
  let char_width := print_width txt
  let line_width :=
    if style.double_width || (style.double_width && style.double_height) then
      pw.chars_jp
    else
      pw.chars
  let effective_char_width :=
    if style.double_width then char_width else char_width
  match style.align with
  | Align.Center =>
    let padding := line_width - effective_char_width
    let left_pad := padding / 2
    let right_pad := padding - left_pad
    String.mk (List.replicate left_pad ' ') ++ txt
      ++ String.mk (List.replicate right_pad ' ')
  | Align.Right =>
    let padding := line_width - effective_char_width
    String.mk (List.replicate padding ' ') ++ txt
  | Align.Left =>
    let padding := line_width - effective_char_width
    txt ++ String.mk (List.replicate padding ' ')

/-- Trace of `JpPrinter::jp_textln_padded`: emit the padded string through
`jp_textln` with the align overridden to Left. -/
def jp_textln_padded_writes (enc : String → List Nat) (pw : PaperWidth)
    (txt : String) (style : TextStyle) : List Write :=
  jp_textln_writes enc (padded_string pw txt style) { style with align := Align.Left }

/-- Modelled from the spec (refinement target for the padding policy, spec
sections 4.4 and 9): target column count is the paper's wide-character
column count when double-width styling is requested, with no further
halving, and the narrow-character column count otherwise; the padding
(target minus display width, saturating at zero) goes all to the right for
Left, all to the left for Right, and is split with the remainder on the
right pad for Center. -/
def paddedLineSpec (pw : PaperWidth) (txt : String) (style : TextStyle) : String :=
  let target := if style.double_width then pw.chars_jp else pw.chars
  let padding := target - print_width txt
  match style.align with
  | Align.Center =>
    let left_pad := padding / 2
    let right_pad := padding - left_pad
    String.mk (List.replicate left_pad ' ') ++ txt
      ++ String.mk (List.replicate right_pad ' ')
  | Align.Right => String.mk (List.replicate padding ' ') ++ txt
  | Align.Left => txt ++ String.mk (List.replicate padding ' ')

/-! ### QR code sub-protocol (jp_escpos.rs lines 388-420) -/

/-- Rust `u8::clamp(lo, hi)`: the value forced into the interval. -/
def clampNat (x lo hi : Nat) : Nat :=
  if x < lo then lo else if hi < x then hi else x

/-- The cell-size parameter byte of `qr_code`: `size.unwrap_or(4).clamp(1, 16)`. -/
def qr_cell_size (size : Option Nat) : Nat :=
  clampNat (size.getD 4) 1 16

/-- The fn=180 store-data command of `qr_code` (lines 404-414): declared
length is the payload byte count plus 3 for the cn/fn/m header bytes, split
little-endian over the two bytes pL, pH (`len & 0xFF` is `len % 256`,
`(len >> 8) & 0xFF` is `(len / 256) % 256` on naturals). -/
def qr_store_cmd (data : List Nat) : List Nat :=
  let len := data.length + 3
  let pl := len % 256
  let ph := (len / 256) % 256
  [0x1D, 0x28, 0x6B, pl, ph, 0x31, 0xB4, 0x30] ++ data

/-- Trace of `JpPrinter::qr_code` as the list of its raw writes, with the
payload already given as its UTF-8 bytes (`data.as_bytes()`). -/
def qr_code_writes (data : List Nat) (size : Option Nat) : List (List Nat) :=
  let size := qr_cell_size size
  [QR_MODEL_2, QR_SIZE_HEADER ++ [size], QR_ERROR_M, qr_store_cmd data, QR_PRINT]

/-! ### CODE128 barcode sub-protocol (jp_escpos.rs lines 430-457) -/

/-- The module-width parameter byte of `barcode_code128`:
`width.unwrap_or(2).clamp(2, 6)`. -/
def code128_width (width : Option Nat) : Nat :=
  clampNat (width.getD 2) 2 6

/-- Trace of `JpPrinter::barcode_code128` as the list of its raw writes:
HRI position, height (default 50, passed through), module width (clamped),
then the `GS k 0x49 n d1..dk` print command whose single length byte is the
payload byte count cast to `u8` (`% 256`). -/
def barcode_code128_writes (data : List Nat) (height width : Option Nat) :
    List (List Nat) :=
  let height := height.getD 50
  let width := code128_width width
  [[0x1D, 0x48, 0x02], [0x1D, 0x68, height % 256], [0x1D, 0x77, width],
    [0x1D, 0x6B, 0x49, data.length % 256] ++ data]

/-! ### Receipt formatter (lib.rs) -/

/-- `format_price` (lib.rs lines 224-234): thousands-separated decimal
digits prefixed with the full-width yen sign U+FFE5 (the source comment
notes the full-width sign is deliberate because half-width yen collides
with backslash in Shift-JIS). -/
def format_price (price : Nat) : String :=
  let s := Nat.repr price
  let result := (s.data.reverse.enum).foldl
    (fun result ic =>
      let result := if 0 < ic.1 ∧ ic.1 % 3 = 0 then ',' :: result else result
      ic.2 :: result)
    ([] : List Char)
  "￥" ++ String.mk result

/-- Rust `str::parse::<u32>()`: optional leading plus sign, then at least
one decimal digit, value within `u32` range; anything else fails. -/
def parse_u32 (s : String) : Option Nat :=
  let cs := match s.data with
    | '+' :: rest => rest
    | cs => cs
  if cs.isEmpty then
    none
  else if cs.all Char.isDigit then
    let v := cs.foldl (fun acc c => acc * 10 + (c.toNat - 48)) 0
    if v < 4294967296 then some v else none
  else
    none

/-- Rust `str::trim_start_matches('0')`: drop leading zero characters. -/
def trim_start_zeros (s : String) : String :=
  String.mk (s.data.dropWhile (fun c => c = '0'))

/-- UTF-8 encoded length of one character (Rust `char::len_utf8`). -/
def utf8Len (c : Char) : Nat :=
  if c.toNat < 0x80 then 1
  else if c.toNat < 0x800 then 2
  else if c.toNat < 0x10000 then 3
  else 4

/-- Rust `str::len`: the UTF-8 byte length of the string. -/
def utf8ByteLen (s : String) : Nat :=
  (s.data.map utf8Len).sum

/-- The characters after the first `n` UTF-8 bytes of a character list;
`none` when byte offset `n` is not a character boundary (or past the
end). -/
def dropBytes : List Char → Nat → Option (List Char)
  | cs, 0 => some cs
  | [], _ + 1 => none
  | c :: cs, n + 1 =>
    if utf8Len c ≤ n + 1 then dropBytes cs (n + 1 - utf8Len c) else none

/-- The characters making up exactly the first `n` UTF-8 bytes of a
character list; `none` when byte offset `n` is not a character boundary
(or past the end). -/
def takeBytes : List Char → Nat → Option (List Char)
  | _, 0 => some []
  | [], _ + 1 => none
  | c :: cs, n + 1 =>
    if utf8Len c ≤ n + 1 then
      (takeBytes cs (n + 1 - utf8Len c)).map (fun t => c :: t)
    else
      none

/-- Rust byte slice `&s[a..b]` for `a ≤ b` (the only uses here are the
constant ranges 3..7 and 8..12): the substring covering UTF-8 bytes `a` to
`b`, or `none` when either offset is not a character boundary or past the
end — the case in which Rust panics. -/
def byteSlice (s : String) (a b : Nat) : Option String :=
  match dropBytes s.data a with
  | some rest => (takeBytes rest (b - a)).map String.mk
  | none => none

/-- Result of a computation that byte-slices a string: either a value, or
the runtime failure Rust raises when a slice boundary falls inside a
multi-byte character. -/
inductive SliceResult (α : Type) where
  | boundaryFault
  | ok (val : α)
deriving DecidableEq

/-- `format_book_number` (lib.rs lines 237-253): from the ISDN and the
second barcode string derive the display code "ISDN Cxxxx ￥price".
`ok none` when either field is absent, the ISDN is empty, or the second
code is shorter than 12 UTF-8 bytes (`jan2_str.len() < 12` is a byte
count); otherwise the code byte-slices `[3..7]` and `[8..12]`, which
faults (`boundaryFault`) when a slice boundary is not a character
boundary. -/
def format_book_number (isdn : Option String) (jan2 : Option String) :
    SliceResult (Option String) :=
  match isdn, jan2 with
  | some isdn_str, some jan2_str =>
    if isdn_str.isEmpty ∨ utf8ByteLen jan2_str < 12 then
      SliceResult.ok none
    else
      match byteSlice jan2_str 3 7, byteSlice jan2_str 8 12 with
      | some code_slice, some price_str =>
        let c_code := "C" ++ code_slice
        let price_value := (parse_u32 (trim_start_zeros price_str)).getD 0
        SliceResult.ok
          (some (isdn_str ++ " " ++ c_code ++ " " ++ format_price price_value))
      | _, _ => SliceResult.boundaryFault
  | _, _ => SliceResult.ok none

/-- The item display number of `print_receipt` (lib.rs lines 301-307): for
a book item the derived book number with the JAN as fallback
(`unwrap_or_else`), otherwise the JAN; a slicing fault inside
`format_book_number` propagates. -/
def display_number (is_book : Bool) (isdn jan2 : Option String) (jan : String) :
    SliceResult String :=
  if is_book then
    match format_book_number isdn jan2 with
    | SliceResult.ok r => SliceResult.ok (r.getD jan)
    | SliceResult.boundaryFault => SliceResult.boundaryFault
  else
    SliceResult.ok jan

/-- Payment record of the receipt (lib.rs lines 46-52), amounts as `u32`. -/
structure PaymentInfo where
  method : String
  amount : Nat
deriving DecidableEq

/-- The cash payment lookup of `print_receipt` (lib.rs line 340): first
payment whose method label is exactly the cash label. -/
def find_cash_payment (payments : List PaymentInfo) : Option PaymentInfo :=
  payments.find? (fun p => p.method == "現金")

/-- The change row of `print_receipt` (lib.rs lines 339-346): when a cash
payment exists, change is the cash amount minus the total with saturating
subtraction, and the row (showing the change amount) is emitted only when
the change is positive. -/
def change_row (payments : List PaymentInfo) (total : Nat) : Option Nat :=
  match find_cash_payment payments with
  | some cash =>
    let change := cash.amount - total
    if 0 < change then some change else none
  | none => none

/-! ### Helper lemmas -/

theorem charWidth_sum_ascii (l : List Char) (h : ∀ c ∈ l, c.toNat ≤ 0x7F) :
    (l.map charWidth).sum = l.length := by
  induction l with
  | nil => simp
  | cons c t ih =>
    have hc : c.toNat ≤ 0x7F := h c (List.mem_cons_self c t)
    have ht := ih (fun x hx => h x (List.mem_cons_of_mem _ hx))
    simp [charWidth, hc, ht]
    omega

theorem charWidth_sum_wide (l : List Char) (h : ∀ c ∈ l, 0x7F < c.toNat) :
    (l.map charWidth).sum = 2 * l.length := by
  induction l with
  | nil => simp
  | cons c t ih =>
    have hc : ¬ c.toNat ≤ 0x7F := by
      have := h c (List.mem_cons_self c t)
      omega
    have ht := ih (fun x hx => h x (List.mem_cons_of_mem _ hx))
    simp [charWidth, hc, ht]
    omega

/-! ### Claim theorems -/

/-- C3: print_width of an all-ASCII string is its character count, of an
all-non-ASCII string twice its character count, and in general the sum of
per-character widths (1 for ASCII codepoints up to 0x7F, 2 otherwise). -/
theorem print_width_widths (s : String) :
    ((∀ c ∈ s.data, c.toNat ≤ 0x7F) → print_width s = s.length) ∧
    ((∀ c ∈ s.data, 0x7F < c.toNat) → print_width s = 2 * s.length) ∧
    print_width s = (s.data.map charWidth).sum := by
  refine ⟨fun h => ?_, fun h => ?_, rfl⟩
  · exact charWidth_sum_ascii s.data h
  · exact charWidth_sum_wide s.data h

/-- Witness for C3 at the all-ASCII string "AB" and the all-wide string
"あい". -/
theorem print_width_widths_witness :
    print_width "AB" = "AB".length ∧ print_width "あい" = 2 * "あい".length :=
  ⟨(print_width_widths "AB").1 (by decide),
    (print_width_widths "あい").2.1 (by decide)⟩

/-- C4 counterexample: row("A", "B", 10) builds the line with 8 interior
spaces (the saturating fill 10 − (1 + 1)), not 7 as claimed. -/
theorem row_A_B_10_not_seven_spaces :
    row_string "A" "B" 10 = "A" ++ String.mk (List.replicate 8 ' ') ++ "B" ∧
    row_string "A" "B" 10 ≠ "A" ++ String.mk (List.replicate 7 ' ') ++ "B" := by
  constructor
  · decide
  · decide

/-- C4 amended: row("A", "B", 10) emits a line with exactly 8 interior
space characters between "A" and "B" (fill = 10 − 1 − 1 = 8), and that line
is what the textln operation emits. -/
theorem row_A_B_10_eight_spaces :
    row_string "A" "B" 10 = "A" ++ String.mk (List.replicate 8 ' ') ++ "B" ∧
    ∀ enc : String → List Nat,
      row_writes enc "A" "B" 10 =
        textln_writes enc ("A" ++ String.mk (List.replicate 8 ' ') ++ "B") := by
  constructor
  · decide
  · intro enc
    unfold row_writes
    congr 1

/-- C5: when the combined display width of the two strings is at least the
line width, the fill saturates to zero and the row is the two strings
directly concatenated (no interior spaces, nothing inserted between them);
in particular row("ABCDEFGHIJ", "K", 10) has zero interior spaces. -/
theorem row_fill_saturating :
    (∀ (left right : String) (width : Nat),
        width ≤ print_width left + print_width right →
        row_string left right width = left ++ right) ∧
    row_string "ABCDEFGHIJ" "K" 10 = "ABCDEFGHIJK" := by
  constructor
  · intro l r w h
    have h0 : w - (print_width l + print_width r) = 0 := Nat.sub_eq_zero_of_le h
    apply String.ext
    simp [row_string, h0]
  · decide

/-- Witness for C5 at row("ABCDEFGHIJ", "K", 10). -/
theorem row_fill_saturating_witness :
    row_string "ABCDEFGHIJ" "K" 10 = "ABCDEFGHIJ" ++ "K" :=
  row_fill_saturating.1 "ABCDEFGHIJ" "K" 10 (by decide)

theorem applyWrites_append_lf (st : PState) (ws : List Write) :
    applyWrites st (ws ++ [Write.lf]) = applyWrites st ws := by
  simp [applyWrites, List.foldl_append, applyWrite]

theorem applyWrites_jp_text (enc : String → List Nat) (txt : String)
    (style : TextStyle) (s : PState)
    (hd : s.doubleSize = false) (hz : s.kanjiSize = 0) :
    applyWrites s (jp_text_writes enc txt style) = baseline := by
  obtain ⟨sa, sb, su, sr, sd, sk, sz⟩ := s
  dsimp only at hd hz
  subst hd
  subst hz
  obtain ⟨b, u, dw, dh, rv, al⟩ := style
  cases b <;> cases u <;> cases dw <;> cases dh <;> cases rv <;> cases al <;>
    simp [jp_text_writes, applyWrites, applyWrite, baseline,
      show Nat.lor 0 4 = 4 from rfl, show Nat.lor 0 8 = 8 from rfl]

/-- C1: for every text-emitting operation (jp_text, jp_textln, text,
textln), any input string, any Shift-JIS encoding of it and any style,
starting from a device state whose double-size and kanji-size flags are
clear, the style state after the emitted writes is exactly the baseline:
alignment Left, bold/underline/reverse off, double-size off, double-byte
(kanji) mode off — every style-affecting command of the call is undone by
its inverse before the call returns. -/
theorem text_ops_restore_baseline (enc : String → List Nat) (txt : String)
    (style : TextStyle) (s : PState)
    (hd : s.doubleSize = false) (hz : s.kanjiSize = 0) :
    applyWrites s (jp_text_writes enc txt style) = baseline ∧
    applyWrites s (jp_textln_writes enc txt style) = baseline ∧
    applyWrites s (text_writes enc txt) = baseline ∧
    applyWrites s (textln_writes enc txt) = baseline := by
  have h1 := applyWrites_jp_text enc txt style s hd hz
  have h2 := applyWrites_jp_text enc txt {} s hd hz
  refine ⟨h1, ?_, h2, ?_⟩
  · rw [jp_textln_writes, applyWrites_append_lf, h1]
  · rw [textln_writes, jp_textln_writes, applyWrites_append_lf, h2]

/-- Witness for C1: a fully styled call on the baseline state. -/
theorem text_ops_restore_baseline_witness :
    applyWrites baseline
      (jp_text_writes (fun _ => [0x41]) "A"
        ⟨true, true, true, false, true, Align.Center⟩) = baseline :=
  (text_ops_restore_baseline (fun _ => [0x41]) "A"
    ⟨true, true, true, false, true, Align.Center⟩ baseline rfl rfl).1

/-- C2 counterexample: for the 65533-byte payload the declared length of
the store-data command is pL = 0, pH = 0 (little-endian value 0), while the
payload byte count plus 3 is 65536 — the declared length does not equal
N + 3 for every payload. -/
theorem qr_store_length_truncates :
    qr_store_cmd (List.replicate 65533 0) =
      [0x1D, 0x28, 0x6B, 0, 0, 0x31, 0xB4, 0x30] ++ List.replicate 65533 0 ∧
    (List.replicate 65533 0).length + 3 ≠ 0 + 256 * 0 := by
  constructor
  · show [0x1D, 0x28, 0x6B, ((List.replicate 65533 (0:Nat)).length + 3) % 256,
        (((List.replicate 65533 (0:Nat)).length + 3) / 256) % 256, 0x31, 0xB4, 0x30]
          ++ List.replicate 65533 0 =
      [0x1D, 0x28, 0x6B, 0, 0, 0x31, 0xB4, 0x30] ++ List.replicate 65533 0
    rw [List.length_replicate]
  · rw [List.length_replicate]
    omega

/-- C2 amended: the QR steps are emitted in the order model-select,
cell-size, error-correction level M, store, print; the store command
carries the header cn = 0x31, fn = 0xB4, m = 0x30 followed by the payload,
and declares the little-endian 16-bit value (N + 3) mod 65536, which equals
N + 3 exactly when N + 3 is at most 65535. -/
theorem qr_code_protocol (data : List Nat) (size : Option Nat) :
    qr_code_writes data size =
      [QR_MODEL_2, QR_SIZE_HEADER ++ [qr_cell_size size], QR_ERROR_M,
        qr_store_cmd data, QR_PRINT] ∧
    qr_store_cmd data =
      [0x1D, 0x28, 0x6B, (data.length + 3) % 256,
        ((data.length + 3) / 256) % 256, 0x31, 0xB4, 0x30] ++ data ∧
    (data.length + 3) % 256 + 256 * (((data.length + 3) / 256) % 256) =
      (data.length + 3) % 65536 ∧
    ((data.length + 3) % 65536 = data.length + 3 ↔ data.length + 3 ≤ 65535) := by
  refine ⟨rfl, rfl, ?_, ?_⟩ <;> omega

/-- C6 counterexample: the derived display code for ISDN "JAN1" and second
code "1920094001600" is not the claimed "JAN1 C0094 ¥16" (the code derives
price 160 from the digits at byte offsets [8:12] and prints the full-width
yen sign); and the claimed fallback for second codes shorter than 12
characters also fails: "ああああ" has 4 characters but 12 UTF-8 bytes, so
the code passes the length check and faults byte-slicing [3..7] instead of
falling back to the JAN. -/
theorem format_book_number_cex :
    format_book_number (some "JAN1") (some "1920094001600") ≠
      SliceResult.ok (some "JAN1 C0094 ¥16") ∧
    "ああああ".length < 12 ∧
    display_number true (some "JAN1") (some "ああああ") "JAN1" ≠
      SliceResult.ok "JAN1" := by
  refine ⟨by decide, by decide, by decide⟩

/-- C6 amended: for ISDN "JAN1" and second code "1920094001600" the derived
display code is "JAN1 C0094 ￥160" (full-width yen, price 160 parsed from
byte offsets [8:12] after stripping leading zeros); and for every book item
whose second code is absent or shorter than 12 UTF-8 bytes, or whose ISDN
field is absent or empty, the display falls back to the item's JAN
unchanged. -/
theorem format_book_number_amended :
    format_book_number (some "JAN1") (some "1920094001600") =
      SliceResult.ok (some "JAN1 C0094 ￥160") ∧
    ∀ (isdn jan2 : Option String) (jan : String),
      (jan2 = none ∨ (∃ s2, jan2 = some s2 ∧ utf8ByteLen s2 < 12) ∨
        isdn = none ∨ isdn = some "") →
      display_number true isdn jan2 jan = SliceResult.ok jan := by
  constructor
  · decide
  · intro isdn jan2 jan h
    rcases h with h | ⟨s2, h, hlen⟩ | h | h
    · subst h
      cases isdn <;> simp [display_number, format_book_number]
    · subst h
      cases isdn with
      | none => simp [display_number, format_book_number]
      | some i => simp [display_number, format_book_number, hlen]
    · subst h
      cases jan2 <;> simp [display_number, format_book_number]
    · subst h
      cases jan2 with
      | none => simp [display_number, format_book_number]
      | some s2 =>
        have he : ("" : String).isEmpty = true := rfl
        simp [display_number, format_book_number, he]

/-- Witness for C6 at a second code of 3 bytes. -/
theorem format_book_number_amended_witness :
    display_number true (some "JAN1") (some "192") "4900000000000" =
      SliceResult.ok "4900000000000" :=
  format_book_number_amended.2 (some "JAN1") (some "192") "4900000000000"
    (Or.inr (Or.inl ⟨"192", rfl, by decide⟩))

/-- C7: for the first payment whose method label is exactly the cash label,
the change is the cash amount minus the total with saturating subtraction,
and the change row is emitted exactly when the change is positive; cash
1000 against total 750 emits 250, cash 750 against total 750 emits no
row. -/
theorem change_due_rule :
    (∀ (ps : List PaymentInfo) (total : Nat) (cash : PaymentInfo),
        find_cash_payment ps = some cash →
        change_row ps total =
          if 0 < cash.amount - total then some (cash.amount - total) else none) ∧
    change_row [⟨"現金", 1000⟩] 750 = some 250 ∧
    change_row [⟨"現金", 750⟩] 750 = none := by
  refine ⟨?_, by decide, by decide⟩
  intro ps total cash h
  simp [change_row, h]

/-- Witness for C7 at a single cash payment of 1000 against total 750. -/
theorem change_due_rule_witness :
    change_row [⟨"現金", 1000⟩] 750 =
      if 0 < 1000 - 750 then some (1000 - 750) else none :=
  change_due_rule.1 [⟨"現金", 1000⟩] 750 ⟨"現金", 1000⟩ (by decide)

theorem clampNat_bounds (x lo hi : Nat) (h : lo ≤ hi) :
    lo ≤ clampNat x lo hi ∧ clampNat x lo hi ≤ hi := by
  unfold clampNat
  split
  · omega
  · split <;> omega

/-- C8: the QR cell-size parameter is clamped into [1,16] with default 4,
the barcode module-width parameter is clamped into [2,6] with default 2,
and both operations emit their full command sequence for every parameter
value — parameters are never rejected, the emission is total. -/
theorem size_params_clamped (data : List Nat) (size hgt wid : Option Nat) :
    1 ≤ qr_cell_size size ∧ qr_cell_size size ≤ 16 ∧ qr_cell_size none = 4 ∧
    2 ≤ code128_width wid ∧ code128_width wid ≤ 6 ∧ code128_width none = 2 ∧
    qr_code_writes data size =
      [QR_MODEL_2, QR_SIZE_HEADER ++ [qr_cell_size size], QR_ERROR_M,
        qr_store_cmd data, QR_PRINT] ∧
    barcode_code128_writes data hgt wid =
      [[0x1D, 0x48, 0x02], [0x1D, 0x68, hgt.getD 50 % 256],
        [0x1D, 0x77, code128_width wid],
        [0x1D, 0x6B, 0x49, data.length % 256] ++ data] := by
  refine ⟨(clampNat_bounds _ 1 16 (by omega)).1, (clampNat_bounds _ 1 16 (by omega)).2,
    rfl, (clampNat_bounds _ 2 6 (by omega)).1, (clampNat_bounds _ 2 6 (by omega)).2,
    rfl, rfl, rfl⟩

/-- C9: jp_textln_padded computes the target width from the wide-character
column count when double-width styling is requested (no further halving)
and the narrow-character column count otherwise, distributes the saturating
padding per the requested alignment (Center splits with the remainder on
the right, Right pads on the left, Left pads on the right), and emits the
padded string through the normal jp_textln operation with Align forced to
Left. -/
theorem jp_textln_padded_matches_spec (enc : String → List Nat)
    (pw : PaperWidth) (txt : String) (style : TextStyle) :
    jp_textln_padded_writes enc pw txt style =
      jp_textln_writes enc (paddedLineSpec pw txt style)
        { style with align := Align.Left } := by
  obtain ⟨b, u, dw, dh, rv, al⟩ := style
  cases dw <;> cases dh <;> cases al <;>
    simp [jp_textln_padded_writes, padded_string, paddedLineSpec]

/-- C10: barcode_code128 emits the GS k 0x49 print command whose single
length byte is the payload byte count reduced modulo 256, the declared
length equals the exact count exactly when the payload is at most 255
bytes, and the height byte is the parameter (default 50) with no
clamping. -/
theorem barcode_code128_protocol (data : List Nat) (height width : Option Nat) :
    barcode_code128_writes data height width =
      [[0x1D, 0x48, 0x02], [0x1D, 0x68, height.getD 50 % 256],
        [0x1D, 0x77, code128_width width],
        [0x1D, 0x6B, 0x49, data.length % 256] ++ data] ∧
    (data.length % 256 = data.length ↔ data.length ≤ 255) ∧
    (height.getD 50 % 256 = height.getD 50 ↔ height.getD 50 ≤ 255) := by
  refine ⟨rfl, ?_, ?_⟩ <;> omega

end Mizpos
